import Mathlib

/-!
Verification development for the Tactica Arena combat core.

Shallow embedding of the JavaScript combat engine sources
(DeterministicRNG.js, D20Engine.js, Unit.js, DamageCalculator.js,
HitCalculator.js, InitiativeSystem.js, ActionPointSystem.js,
CombatState.js).  Conventions used throughout:

* JavaScript `number` values that hold game quantities are modelled over
  `ℚ` (or `ℤ`/`ℕ` where the source only ever produces integers); the
  32-bit wraparound of the RNG (`>>> 0`) is written explicitly as
  `% 2 ^ 32`.
* `Math.floor` and `Math.ceil` become `Int.floor` / `Int.ceil` on `ℚ`.
* Mutable objects become explicit state passing: methods that mutate
  return the updated value together with their result.
* JavaScript `Map` objects become association lists with key lookup.
-/

namespace Tactica

/-! ## Deterministic random source (src/combat/core/DeterministicRNG.js) -/

/-- 2^32, the modulus of the 32-bit linear congruential generator. -/
def UINT32 : ℕ := 2 ^ 32

/-- `normalizeSeed`: `Math.abs(Math.floor(seed)) >>> 0` for integer seeds. -/
def normalizeSeed (seed : ℤ) : ℕ := seed.natAbs % UINT32

/-- Mutable state of a `DeterministicRNG` instance. -/
structure RNG where
  originalSeed : ℤ
  state : ℕ
  callCount : ℕ
deriving Repr, DecidableEq

/-- The `DeterministicRNG` constructor. -/
def mkRNG (seed : ℤ) : RNG := ⟨seed, normalizeSeed seed, 0⟩

/-- One LCG step: `(1664525 * state + 1013904223) >>> 0`. -/
def lcg (s : ℕ) : ℕ := (1664525 * s + 1013904223) % UINT32

/-- `nextRaw()`: advance the state and return the new 32-bit value. -/
def RNG.nextRaw (r : RNG) : ℕ × RNG :=
  (lcg r.state, ⟨r.originalSeed, lcg r.state, r.callCount + 1⟩)

/-- `random()`: `nextRaw() / 2^32`, a value in `[0, 1)`. -/
def RNG.random (r : RNG) : ℚ × RNG :=
  ((r.nextRaw.1 : ℚ) / (UINT32 : ℚ), r.nextRaw.2)

/-- `randInt(min, max)`: `min + (nextRaw() % range)`.  The source throws on
`min > max`; all call sites below use valid ranges. -/
def RNG.randInt (lo hi : ℤ) (r : RNG) : ℤ × RNG :=
  ((lo + (r.nextRaw.1 : ℤ) % (hi - lo + 1)), r.nextRaw.2)

/-- `rollD20()`: `randInt(1, 20)`. -/
def RNG.rollD20 (r : RNG) : ℤ × RNG := r.randInt 1 20

/-- `reset()`: restore the state derived from the original seed. -/
def RNG.reset (r : RNG) : RNG := ⟨r.originalSeed, normalizeSeed r.originalSeed, 0⟩

/-- The list of the next `n` raw 32-bit draws from a given RNG state. -/
def RNG.rawSeq : RNG → ℕ → List ℕ
  | _, 0 => []
  | r, n + 1 => (r.nextRaw).1 :: (r.nextRaw).2.rawSeq n

/-- The list of the next `n` `random()` results. -/
def RNG.randomSeq (r : RNG) (n : ℕ) : List ℚ :=
  (r.rawSeq n).map (fun v : ℕ => (v : ℚ) / (UINT32 : ℚ))

/-- The list of the next `n` `rollD20()` results. -/
def RNG.d20Seq (r : RNG) (n : ℕ) : List ℤ :=
  (r.rawSeq n).map (fun v : ℕ => 1 + (v : ℤ) % 20)

/-- Pure iteration of the LCG from an initial 32-bit state. -/
def lcgIter (s0 : ℕ) : ℕ → ℕ
  | 0 => s0
  | n + 1 => lcg (lcgIter s0 n)

/-- The `n`-th raw draw (0-indexed) as a pure function of the initial state. -/
def nthRaw (s0 : ℕ) (n : ℕ) : ℕ := lcgIter s0 (n + 1)

/-- The raw draw sequence obtained from a freshly constructed RNG. -/
def seedRawSeq (seed : ℤ) (n : ℕ) : List ℕ := (mkRNG seed).rawSeq n

lemma lcgIter_succ_shift (s0 : ℕ) (n : ℕ) :
    lcgIter (lcg s0) n = lcgIter s0 (n + 1) := by
  induction n with
  | zero => simp [lcgIter]
  | succ k ih => simp only [lcgIter, ih]

/-- The raw draw list only depends on the current 32-bit state. -/
lemma rawSeq_state (n : ℕ) (r₁ r₂ : RNG) (h : r₁.state = r₂.state) :
    r₁.rawSeq n = r₂.rawSeq n := by
  induction n generalizing r₁ r₂ with
  | zero => rfl
  | succ k ih =>
      simp only [RNG.rawSeq, RNG.nextRaw, h]
      exact congrArg _ (ih _ _ (by simp [h]))

/-- Each entry of the raw draw list is the pure function `nthRaw` of the
starting state and the draw index. -/
lemma rawSeq_getD (n : ℕ) (i : ℕ) (r : RNG) (h : i < n) :
    (r.rawSeq n).getD i 0 = nthRaw r.state i := by
  induction n generalizing i r with
  | zero => omega
  | succ k ih =>
      cases i with
      | zero =>
          rw [RNG.rawSeq, List.getD_cons_zero]
          rfl
      | succ j =>
          have hj : j < k := by omega
          rw [RNG.rawSeq, List.getD_cons_succ, ih j _ hj]
          show nthRaw (lcg r.state) j = nthRaw r.state (j + 1)
          rw [nthRaw, nthRaw, lcgIter_succ_shift]

lemma lcg_lt_uint32 (s : ℕ) : lcg s < UINT32 :=
  Nat.mod_lt _ (by norm_num [UINT32])

lemma mem_rawSeq_lt (n : ℕ) (r : RNG) (v : ℕ) (h : v ∈ r.rawSeq n) :
    v < UINT32 := by
  induction n generalizing r with
  | zero =>
      rw [RNG.rawSeq] at h
      exact absurd h (List.not_mem_nil v)
  | succ k ih =>
      rw [RNG.rawSeq] at h
      rcases List.mem_cons.mp h with h | h
      · rw [h]; exact lcg_lt_uint32 _
      · exact ih _ h

/-- C1 (helper): after `reset()`, the state is the normalized seed. -/
lemma reset_state (r : RNG) : (r.reset).state = normalizeSeed r.originalSeed := rfl

/-- **C1.** For every seed, the random source is fully reproducible: two
generation runs that each call `reset()` and then draw the same number of
values via `random()` (or `rollD20()`) produce identical sequences; the
`n`-th draw is the pure function `nthRaw` of the normalized seed and the
call index, and each `random()` value lies in `[0, 1)`. -/
theorem C1_rng_reset_reproducible (r₁ r₂ : RNG) (n : ℕ)
    (h : r₁.originalSeed = r₂.originalSeed) :
    (r₁.reset).randomSeq n = (r₂.reset).randomSeq n ∧
    (r₁.reset).d20Seq n = (r₂.reset).d20Seq n ∧
    (∀ i, i < n → ((r₁.reset).rawSeq n).getD i 0 =
      nthRaw (normalizeSeed r₁.originalSeed) i) ∧
    ∀ q ∈ (r₁.reset).randomSeq n, 0 ≤ q ∧ q < 1 := by
  have hseq : (r₁.reset).rawSeq n = (r₂.reset).rawSeq n :=
    rawSeq_state n _ _ (by simp [RNG.reset, h])
  refine ⟨?_, ?_, ?_, ?_⟩
  · simp [RNG.randomSeq, hseq]
  · simp [RNG.d20Seq, hseq]
  · intro i hi
    rw [rawSeq_getD n i _ hi, reset_state]
  · intro q hq
    rw [RNG.randomSeq] at hq
    obtain ⟨v, hv, rfl⟩ := List.mem_map.mp hq
    have hvlt : v < UINT32 := mem_rawSeq_lt n _ v hv
    constructor
    · exact div_nonneg (Nat.cast_nonneg v) (Nat.cast_nonneg UINT32)
    · rw [div_lt_one (by norm_num [UINT32])]
      exact_mod_cast hvlt

/-- Witness for C1: two distinct RNG values sharing the seed 12345 (one of
them mid-stream) produce, after `reset()`, the same two-roll sequence. -/
theorem C1_rng_reset_reproducible_witness :
    (RNG.mk 12345 77 9).reset.randomSeq 2 = (mkRNG 12345).reset.randomSeq 2 ∧
    (RNG.mk 12345 77 9).reset.d20Seq 2 = (mkRNG 12345).reset.d20Seq 2 :=
  ⟨(C1_rng_reset_reproducible (RNG.mk 12345 77 9) (mkRNG 12345) 2 rfl).1,
   (C1_rng_reset_reproducible (RNG.mk 12345 77 9) (mkRNG 12345) 2 rfl).2.1⟩

/-- **C10.** Seeds `s` and `-s` (and, more generally, any two seeds that agree
after `Math.abs(Math.floor(seed)) >>> 0`) construct RNGs with identical raw
draw sequences, so distinct externally supplied seeds collapse to the same
random stream. -/
theorem C10_seed_collapse :
    (∀ (s : ℤ) (n : ℕ), seedRawSeq (-s) n = seedRawSeq s n) ∧
    (∀ s₁ s₂ : ℤ, normalizeSeed s₁ = normalizeSeed s₂ →
      ∀ n : ℕ, seedRawSeq s₁ n = seedRawSeq s₂ n) := by
  have key : ∀ s₁ s₂ : ℤ, normalizeSeed s₁ = normalizeSeed s₂ →
      ∀ n : ℕ, seedRawSeq s₁ n = seedRawSeq s₂ n := by
    intro s₁ s₂ h n
    exact rawSeq_state n _ _ (by simp [mkRNG, h])
  refine ⟨fun s n => key (-s) s ?_ n, key⟩
  simp [normalizeSeed]

/-- Witness for C10: the distinct seeds `2^32 + 7` and `7` (and `-7` and `7`)
produce identical four-draw sequences. -/
theorem C10_seed_collapse_witness :
    seedRawSeq (2 ^ 32 + 7) 4 = seedRawSeq 7 4 ∧
    seedRawSeq (-7) 4 = seedRawSeq 7 4 :=
  ⟨C10_seed_collapse.2 (2 ^ 32 + 7) 7 (by decide) 4, C10_seed_collapse.1 7 4⟩

/-! ## Hidden d20 engine (src/combat/hidden/D20Engine.js) -/

/-- `calculateModifier`: `Math.floor((score - 10) / 2)`. -/
def calculateModifier (score : ℚ) : ℤ := ⌊(score - 10) / 2⌋

/-- `calculateProficiency`: five level bands, +2 through +6. -/
def calculateProficiency (level : ℚ) : ℤ :=
  if level ≥ 61 then 6
  else if level ≥ 41 then 5
  else if level ≥ 21 then 4
  else if level ≥ 11 then 3
  else 2

/-- `validateAbilityScore`: clamp a score into the range [3, 18]. -/
def validateAbilityScore (score : ℚ) : ℚ := max 3 (min 18 score)

/-- One of the six hidden ability identifiers. -/
inductive Ability
  | STR
  | DEX
  | CON
  | INT
  | WIS
  | CHA
deriving Repr, DecidableEq

/-- Hidden ability scores of a unit (class `AbilityScores`). -/
structure AbilityScores where
  STR : ℚ
  DEX : ℚ
  CON : ℚ
  INT : ℚ
  WIS : ℚ
  CHA : ℚ
deriving Repr, DecidableEq

/-- The `AbilityScores` constructor clamps every score. -/
def mkAbilityScores (s d c i w ch : ℚ) : AbilityScores :=
  ⟨validateAbilityScore s, validateAbilityScore d, validateAbilityScore c,
   validateAbilityScore i, validateAbilityScore w, validateAbilityScore ch⟩

/-- Field access by ability name. -/
def AbilityScores.score (a : AbilityScores) : Ability → ℚ
  | .STR => a.STR
  | .DEX => a.DEX
  | .CON => a.CON
  | .INT => a.INT
  | .WIS => a.WIS
  | .CHA => a.CHA

/-- `AbilityScores.getModifier`. -/
def AbilityScores.getModifier (a : AbilityScores) (ab : Ability) : ℤ :=
  calculateModifier (a.score ab)

/-- `AttackCalculator.calculatePhysicalAttack`: proficiency + (STR or DEX
modifier, chosen by melee/ranged) + `equipment.weapon || 0`. -/
def calculatePhysicalAttack (abilities : AbilityScores) (level : ℚ)
    (isRanged : Bool) (equipmentWeapon : ℚ) : ℚ :=
  (calculateProficiency level : ℚ) +
    ((if isRanged then abilities.getModifier .DEX
      else abilities.getModifier .STR : ℤ) : ℚ) +
    equipmentWeapon

/-- Situational context read by `DefenseCalculator.calculatePhysicalDV`. -/
structure Situational where
  cover : ℚ
  height : ℚ
  buffs : ℚ
deriving Repr, DecidableEq

/-- `DefenseCalculator.calculatePhysicalDV`:
`10 + armor + DEX modifier + cover + height + buffs`. -/
def calculatePhysicalDV (abilities : AbilityScores) (equipmentArmor : ℚ)
    (situational : Situational) : ℚ :=
  10 + equipmentArmor + ((abilities.getModifier .DEX : ℤ) : ℚ) +
    situational.cover + situational.height + situational.buffs

/-- Result record of `CriticalSystem.calculateThreatRange`. -/
structure ThreatRange where
  minThreat : ℤ
  maxThreat : ℤ
  extension : ℤ
deriving Repr, DecidableEq

/-- `CriticalSystem.calculateThreatRange`: base threat 20 is extended
downward by `max(0, INT modifier + LCK modifier + equipment.criticalModifier)`
with the extension capped at `NATURAL_CRIT - MAX_THREAT_RANGE = 20 - 18 = 2`.
The source reads `visibleStats.LCK || 8`, so a (falsy) zero LCK falls back
to 8 before the modifier conversion. -/
def calculateThreatRange (abilities : AbilityScores) (visibleLCK : ℚ)
    (equipmentCriticalModifier : ℤ) : ThreatRange :=
  let intMod := abilities.getModifier .INT
  let lckMod := calculateModifier (if visibleLCK = 0 then 8 else visibleLCK)
  let extension := max 0 (intMod + lckMod + equipmentCriticalModifier)
  let maxExtension : ℤ := 20 - 18
  let actualExtension := min extension maxExtension
  ⟨20 - actualExtension, 20, actualExtension⟩

/-- `CriticalSystem.isCriticalHit`: the roll reaches the threat minimum. -/
def isCriticalHit (roll : ℤ) (threatRange : ThreatRange) : Bool :=
  roll ≥ threatRange.minThreat

/-- `CriticalSystem.isFumble`: natural 1, regardless of any bonuses. -/
def isFumble (roll : ℤ) : Bool := roll = 1

/-- Attacker snapshot consumed by `D20Engine.resolvePhysicalAttack`: hidden
abilities, level, visible LCK, and the `weapon` / `criticalModifier` entries
of its equipment object. -/
structure AttackerSnapshot where
  abilities : AbilityScores
  level : ℚ
  visibleLCK : ℚ
  equipmentWeapon : ℚ
  equipmentCriticalModifier : ℤ
deriving Repr, DecidableEq

/-- Defender snapshot consumed by `D20Engine.resolvePhysicalAttack`. -/
structure DefenderSnapshot where
  abilities : AbilityScores
  equipmentArmor : ℚ
  situational : Situational
deriving Repr, DecidableEq

/-- Structured result of `D20Engine.resolvePhysicalAttack`. -/
structure AttackResult where
  hit : Bool
  critical : Bool
  fumble : Bool
  totalAttack : ℚ
  defenseValue : ℚ
  attackRoll : ℤ
  attackBonus : ℚ
  margin : ℚ
  threatRange : ThreatRange
deriving Repr, DecidableEq

/-- `D20Engine.resolvePhysicalAttack`. -/
def resolvePhysicalAttack (attacker : AttackerSnapshot)
    (defender : DefenderSnapshot) (attackRoll : ℤ) (isRanged : Bool) :
    AttackResult :=
  let attackBonus :=
    calculatePhysicalAttack attacker.abilities attacker.level isRanged
      attacker.equipmentWeapon
  let defenseValue :=
    calculatePhysicalDV defender.abilities defender.equipmentArmor
      defender.situational
  let totalAttack := (attackRoll : ℚ) + attackBonus
  let hit : Bool := totalAttack ≥ defenseValue
  let threatRange :=
    calculateThreatRange attacker.abilities attacker.visibleLCK
      attacker.equipmentCriticalModifier
  let critical := hit && isCriticalHit attackRoll threatRange
  let fumble := isFumble attackRoll
  ⟨hit, critical, fumble, totalAttack, defenseValue, attackRoll, attackBonus,
   totalAttack - defenseValue, threatRange⟩

/-- The C2 scenario attacker: STR 14 (modifier +2), level 1 (proficiency +2),
visible LCK 8, no equipment. -/
def c2Attacker : AttackerSnapshot :=
  ⟨mkAbilityScores 14 10 10 10 10 10, 1, 8, 0, 0⟩

/-- The C2 scenario defender: DEX 18 (modifier +4), no armor and no
situational modifiers, so physical defense value 14. -/
def c2Defender : DefenderSnapshot :=
  ⟨mkAbilityScores 10 18 10 10 10 10, 0, ⟨0, 0, 0⟩⟩

/-- **C2.** For every attacker/defender snapshot and d20 roll,
`resolvePhysicalAttack` returns `hit = (roll + attackBonus ≥ defenseValue)`,
`critical = hit AND roll ≥ attacker threat minimum`, `fumble = (roll = 1)`,
`margin = (roll + attackBonus) - defenseValue`, with `attackBonus =
proficiency + (STR or DEX modifier by melee/ranged) + weapon bonus`; in
particular the +2-STR, +2-proficiency, no-equipment attacker rolling 11
against defense value 14 hits (15 ≥ 14) and is not a critical. -/
theorem C2_resolve_physical_attack :
    (∀ (atk : AttackerSnapshot) (dfn : DefenderSnapshot) (roll : ℤ)
        (isRanged : Bool),
      ((resolvePhysicalAttack atk dfn roll isRanged).hit = true ↔
        (roll : ℚ) + (resolvePhysicalAttack atk dfn roll isRanged).attackBonus ≥
          (resolvePhysicalAttack atk dfn roll isRanged).defenseValue) ∧
      (resolvePhysicalAttack atk dfn roll isRanged).attackBonus =
        (calculateProficiency atk.level : ℚ) +
          ((if isRanged then atk.abilities.getModifier .DEX
            else atk.abilities.getModifier .STR : ℤ) : ℚ) +
          atk.equipmentWeapon ∧
      (resolvePhysicalAttack atk dfn roll isRanged).defenseValue =
        calculatePhysicalDV dfn.abilities dfn.equipmentArmor dfn.situational ∧
      ((resolvePhysicalAttack atk dfn roll isRanged).critical = true ↔
        (resolvePhysicalAttack atk dfn roll isRanged).hit = true ∧
        roll ≥ (calculateThreatRange atk.abilities atk.visibleLCK
          atk.equipmentCriticalModifier).minThreat) ∧
      ((resolvePhysicalAttack atk dfn roll isRanged).fumble = true ↔
        roll = 1) ∧
      (resolvePhysicalAttack atk dfn roll isRanged).margin =
        ((roll : ℚ) + (resolvePhysicalAttack atk dfn roll isRanged).attackBonus) -
          (resolvePhysicalAttack atk dfn roll isRanged).defenseValue) ∧
    (resolvePhysicalAttack c2Attacker c2Defender 11 false).hit = true ∧
    (resolvePhysicalAttack c2Attacker c2Defender 11 false).critical = false ∧
    (resolvePhysicalAttack c2Attacker c2Defender 11 false).totalAttack = 15 ∧
    (resolvePhysicalAttack c2Attacker c2Defender 11 false).defenseValue = 14 := by
  have hmod14 : calculateModifier 14 = 2 := by
    rw [calculateModifier]; norm_num
  have hmod18 : calculateModifier 18 = 4 := by
    rw [calculateModifier]; norm_num
  have hmod10 : calculateModifier 10 = 0 := by
    rw [calculateModifier]; norm_num
  have hmod8 : calculateModifier 8 = -1 := by
    rw [calculateModifier]
    rw [show ((8 : ℚ) - 10) / 2 = -1 by norm_num]
    norm_num
  constructor
  · intro atk dfn roll isRanged
    refine ⟨?_, rfl, rfl, ?_, ?_, rfl⟩
    · simp [resolvePhysicalAttack]
    · simp [resolvePhysicalAttack, isCriticalHit, Bool.and_eq_true]
    · simp [resolvePhysicalAttack, isFumble]
  · have habil : (c2Attacker.abilities : AbilityScores) =
        ⟨14, 10, 10, 10, 10, 10⟩ := by
      simp [c2Attacker, mkAbilityScores, validateAbilityScore]
      norm_num
    have hdabil : (c2Defender.abilities : AbilityScores) =
        ⟨10, 18, 10, 10, 10, 10⟩ := by
      simp [c2Defender, mkAbilityScores, validateAbilityScore]
      norm_num
    have hbonus : calculatePhysicalAttack c2Attacker.abilities
        c2Attacker.level false c2Attacker.equipmentWeapon = 4 := by
      rw [calculatePhysicalAttack]
      rw [show (c2Attacker.level : ℚ) = 1 from rfl]
      rw [show (c2Attacker.equipmentWeapon : ℚ) = 0 from rfl]
      rw [show calculateProficiency 1 = 2 by rw [calculateProficiency]; norm_num]
      simp only [Bool.false_eq_true, if_false, AbilityScores.getModifier, habil]
      rw [show (AbilityScores.mk 14 10 10 10 10 10).score .STR = 14 from rfl]
      rw [hmod14]
      norm_num
    have hdv : calculatePhysicalDV c2Defender.abilities
        c2Defender.equipmentArmor c2Defender.situational = 14 := by
      rw [calculatePhysicalDV]
      simp only [AbilityScores.getModifier, hdabil]
      rw [show (AbilityScores.mk 10 18 10 10 10 10).score .DEX = 18 from rfl]
      rw [hmod18]
      rw [show (c2Defender.equipmentArmor : ℚ) = 0 from rfl]
      rw [show (c2Defender.situational : Situational) = ⟨0, 0, 0⟩ from rfl]
      norm_num
    have hthreat : (calculateThreatRange c2Attacker.abilities
        c2Attacker.visibleLCK c2Attacker.equipmentCriticalModifier).minThreat
        = 20 := by
      rw [calculateThreatRange]
      simp only [AbilityScores.getModifier, habil]
      rw [show (c2Attacker.visibleLCK : ℚ) = 8 from rfl]
      rw [show (AbilityScores.mk 14 10 10 10 10 10).score .INT = 10 from rfl]
      rw [if_neg (by norm_num), hmod8, hmod10]
      rw [show (c2Attacker.equipmentCriticalModifier : ℤ) = 0 from rfl]
      norm_num
    have hres : resolvePhysicalAttack c2Attacker c2Defender 11 false =
        ⟨true, false, false, 15, 14, 11, 4, 1,
          calculateThreatRange c2Attacker.abilities c2Attacker.visibleLCK
            c2Attacker.equipmentCriticalModifier⟩ := by
      rw [resolvePhysicalAttack, hbonus, hdv]
      norm_num [isCriticalHit, isFumble, hthreat]
    rw [hres]
    exact ⟨rfl, rfl, rfl, rfl⟩

/-- **C4.** For every ability block, visible LCK value and equipment critical
modifier, the threat range extends downward from 20 by
`max 0 (INT modifier + LCK modifier + equipment bonus)` capped so its
minimum never drops below 18 (the range never exceeds 18-20), and
`isFumble` holds exactly on a natural 1. -/
theorem C4_threat_range_capped_and_fumble :
    (∀ (abilities : AbilityScores) (visibleLCK : ℚ) (equipMod : ℤ),
      (calculateThreatRange abilities visibleLCK equipMod).maxThreat = 20 ∧
      18 ≤ (calculateThreatRange abilities visibleLCK equipMod).minThreat ∧
      (calculateThreatRange abilities visibleLCK equipMod).minThreat ≤ 20 ∧
      (calculateThreatRange abilities visibleLCK equipMod).minThreat =
        20 - min (max 0 (abilities.getModifier .INT +
          calculateModifier (if visibleLCK = 0 then 8 else visibleLCK) +
          equipMod)) 2) ∧
    ∀ roll : ℤ, isFumble roll = true ↔ roll = 1 := by
  constructor
  · intro abilities visibleLCK equipMod
    rw [calculateThreatRange]
    dsimp only
    refine ⟨rfl, ?_, ?_, ?_⟩ <;> omega
  · intro roll
    simp [isFumble]

/-! ## Unit layer (src/combat/hidden/Unit.js) -/

/-- The eleven visible stats of a unit. -/
structure Stats where
  HP : ℚ
  MP : ℚ
  ATK : ℚ
  DEF : ℚ
  MAG : ℚ
  RES : ℚ
  AGL : ℚ
  INT : ℚ
  MOV : ℚ
  RNG : ℚ
  LCK : ℚ
deriving Repr, DecidableEq

/-- One AP-cost modifier entry inside a status effect
(`effects.apCostModifier[actionType]`). -/
structure APCostMod where
  mtype : String
  value : ℚ
deriving Repr, DecidableEq

/-- Typed view of the free-form `effects` object carried by a status effect;
it carries exactly the keys the embedded operations read (named stat
modifiers, per-damage-type resistances, the initiative bonus, and the
per-action-type AP cost modifiers). -/
structure EffectData where
  statMods : List (String × ℚ)
  resistance : List (String × ℚ)
  initiativeBonus : Option ℚ
  apCostModifier : List (String × APCostMod)
deriving Repr, DecidableEq

/-- Status effect (class `StatusEffect`): name, remaining duration,
intensity and its effect map. -/
structure StatusEffect where
  name : String
  duration : ℚ
  intensity : ℚ
  effects : EffectData
deriving Repr, DecidableEq

/-- `StatusEffect.hasExpired`: duration has reached zero. -/
def StatusEffect.hasExpired (e : StatusEffect) : Bool := e.duration ≤ 0

/-- `StatusEffect.getModifiers`: every stat entry scaled by the intensity;
empty once expired. -/
def StatusEffect.getModifiers (e : StatusEffect) : List (String × ℚ) :=
  if e.hasExpired then []
  else e.effects.statMods.map (fun p => (p.1, p.2 * e.intensity))

/-- Special-effect entry on an equipment piece; `etype` is the source field
`type`. -/
structure SpecialEffect where
  etype : String
  name : String
  damageType : String
  actionType : String
  value : ℚ
deriving Repr, DecidableEq

/-- Equipment piece (class `Equipment`); `etype` is the source field `type`
(weapon / armor / accessory / consumable). -/
structure Equipment where
  id : String
  name : String
  etype : String
  durability : ℚ
  statModifiers : List (String × ℚ)
  specialEffects : List SpecialEffect
deriving Repr, DecidableEq

/-- Association-list lookup in JavaScript `map[key] || 0` style. -/
def lookupQ (l : List (String × ℚ)) (key : String) : ℚ :=
  ((l.find? (fun p => p.1 == key)).map Prod.snd).getD 0

/-- Apply one named stat modifier:
`base[stat] = Math.max(0, base[stat] + modifier)`; keys that are not visible
stats are skipped (`base[stat] !== undefined`). -/
def applyStatMod (s : Stats) (kv : String × ℚ) : Stats :=
  match kv.1 with
  | "HP" => {s with HP := max 0 (s.HP + kv.2)}
  | "MP" => {s with MP := max 0 (s.MP + kv.2)}
  | "ATK" => {s with ATK := max 0 (s.ATK + kv.2)}
  | "DEF" => {s with DEF := max 0 (s.DEF + kv.2)}
  | "MAG" => {s with MAG := max 0 (s.MAG + kv.2)}
  | "RES" => {s with RES := max 0 (s.RES + kv.2)}
  | "AGL" => {s with AGL := max 0 (s.AGL + kv.2)}
  | "INT" => {s with INT := max 0 (s.INT + kv.2)}
  | "MOV" => {s with MOV := max 0 (s.MOV + kv.2)}
  | "RNG" => {s with RNG := max 0 (s.RNG + kv.2)}
  | "LCK" => {s with LCK := max 0 (s.LCK + kv.2)}
  | _ => s

/-- Combat unit (class `Unit`): the fields read by the embedded operations.
`baseStats` is the block computed at construction by `deriveVisibleStats`;
`uclass` is the source field `class`. -/
structure Unit where
  id : String
  uclass : String
  level : ℚ
  hiddenAbilities : AbilityScores
  equipment : List Equipment
  baseStats : Stats
  currentHP : ℚ
  currentAP : ℚ
  statusEffects : List StatusEffect
  isIncapacitated : Bool
  hasActedThisTurn : Bool
deriving Repr, DecidableEq

/-- `Unit.getCurrentStats`: the base stats with every status-effect stat
modifier applied (each clamped at 0). -/
def Unit.getCurrentStats (u : Unit) : Stats :=
  u.statusEffects.foldl (fun st e => (e.getModifiers).foldl applyStatMod st)
    u.baseStats

/-- Result record of `Unit.takeDamage`. -/
structure DamageTaken where
  damage : ℚ
  actualDamage : ℚ
  overkill : ℚ
  mitigationAmount : ℚ
  remainingHP : ℚ
deriving Repr, DecidableEq

/-- `Unit.takeDamage`: mitigation is `DEF * 2%` for physical damage,
`RES * 2%` for magical damage and zero otherwise (true damage bypasses it);
the damage applied is `max(1, floor(amount * (1 - min(0.9, mitigation))))`,
truncated by the remaining HP; an incapacitated unit takes zero damage.
In the incapacitated early return the source omits the mitigation and
remaining-HP fields; they are filled with `0` and the unchanged HP here. -/
def Unit.takeDamage (u : Unit) (amount : ℚ) (dtype : String) :
    DamageTaken × Unit :=
  if u.isIncapacitated then (⟨0, 0, 0, 0, u.currentHP⟩, u)
  else
    let currentStats := u.getCurrentStats
    let mitigation : ℚ :=
      if dtype == "physical" then currentStats.DEF * (2 / 100)
      else if dtype == "magical" then currentStats.RES * (2 / 100)
      else 0
    let mitigatedDamage : ℚ :=
      ((max 1 ⌊amount * (1 - min (9 / 10) mitigation)⌋ : ℤ) : ℚ)
    let actualDamage := min u.currentHP mitigatedDamage
    let overkill := mitigatedDamage - actualDamage
    let newHP := max 0 (u.currentHP - actualDamage)
    (⟨amount, actualDamage, overkill, amount - mitigatedDamage, newHP⟩,
     { u with currentHP := newHP,
              isIncapacitated := if newHP ≤ 0 then true else u.isIncapacitated,
              currentAP := if newHP ≤ 0 then 0 else u.currentAP })

/-! ## Damage mitigation and elemental resistance
(src/combat/systems/DamageCalculator.js, class DamageResistance) -/

/-- `DamageResistance.isPhysicalDamage`. -/
def isPhysicalDamage (damageType : String) : Bool :=
  ["physical", "slashing", "piercing", "bludgeoning"].contains damageType

/-- `DamageResistance.isMagicalDamage`. -/
def isMagicalDamage (damageType : String) : Bool :=
  ["magical", "fire", "ice", "lightning", "earth", "wind", "dark",
   "holy"].contains damageType

/-- `DamageResistance.calculatePhysicalMitigation`: 2% reduction per DEF
point, capped at 90%, floored on the damage. -/
def calculatePhysicalMitigation (defenseValue : ℚ) (baseDamage : ℚ) : ℤ :=
  ⌊baseDamage * min (9 / 10) (defenseValue * (2 / 100))⌋

/-- `DamageResistance.calculateMagicalMitigation`: 2% reduction per RES
point, capped at 90%, floored on the damage. -/
def calculateMagicalMitigation (resistanceValue : ℚ) (baseDamage : ℚ) : ℤ :=
  ⌊baseDamage * min (9 / 10) (resistanceValue * (2 / 100))⌋

/-- `DamageResistance.calculateElementalResistance`: the `resistance`
special effects of the equipment matching the damage type plus the
status-effect resistances for that type, summed and clamped to
[-100%, 95%]. -/
def calculateElementalResistance (defender : Unit) (damageType : String) :
    ℚ :=
  let equipSum := (defender.equipment.map (fun item =>
    ((item.specialEffects.filter (fun e =>
      e.etype == "resistance" && e.damageType == damageType)).map
        (fun e => e.value)).sum)).sum
  let statusSum := (defender.statusEffects.map (fun e =>
    lookupQ e.effects.resistance damageType)).sum
  max (-1) (min (95 / 100) (equipSum + statusSum))

/-- Result record of `DamageResistance.calculateMitigation`. -/
structure MitigationResult where
  originalDamage : ℚ
  baseMitigation : ℤ
  resistancePercent : ℚ
  finalDamage : ℚ
  damageReduced : ℚ
deriving Repr, DecidableEq

/-- `DamageResistance.calculateMitigation`: flat DEF/RES mitigation first
(kept at least 1), then the clamped elemental resistance applied
multiplicatively, floored and kept at least 1. -/
def calculateMitigation (defender : Unit) (damageType : String)
    (baseDamage : ℚ) : MitigationResult :=
  let stats := defender.getCurrentStats
  let mitigation : ℤ :=
    if isPhysicalDamage damageType then
      calculatePhysicalMitigation stats.DEF baseDamage
    else if isMagicalDamage damageType then
      calculateMagicalMitigation stats.RES baseDamage
    else 0
  let resistancePercent := calculateElementalResistance defender damageType
  let afterMitigation : ℚ := max 1 (baseDamage - (mitigation : ℚ))
  let afterResistance : ℚ :=
    ((max 1 ⌊afterMitigation * (1 - resistancePercent)⌋ : ℤ) : ℚ)
  ⟨baseDamage, mitigation, resistancePercent, afterResistance,
   baseDamage - afterResistance⟩

/-- The damage actually applied by `takeDamage` before HP truncation,
recovered from the result as `actualDamage + overkill`. -/
lemma takeDamage_applied (u : Tactica.Unit) (amount : ℚ) (dtype : String)
    (h : u.isIncapacitated = false) :
    (u.takeDamage amount dtype).1.actualDamage +
        (u.takeDamage amount dtype).1.overkill =
      ((max 1 ⌊amount * (1 - min (9 / 10)
        (if dtype == "physical" then u.getCurrentStats.DEF * (2 / 100)
         else if dtype == "magical" then u.getCurrentStats.RES * (2 / 100)
         else 0))⌋ : ℤ) : ℚ) := by
  rw [Unit.takeDamage, if_neg (by simp [h])]
  dsimp only
  ring

/-- The C3 scenario unit that is already incapacitated. -/
def c3KoUnit : Tactica.Unit :=
  ⟨"ko", "SWORDSMAN", 1, mkAbilityScores 10 10 10 10 10 10, [],
   ⟨200, 50, 25, 30, 20, 10, 15, 12, 4, 1, 8⟩, 0, 0, [], true, false⟩

/-- The C3 scenario unit that is alive: DEF 30, RES 10, 100 HP left. -/
def c3AliveUnit : Tactica.Unit :=
  ⟨"alive", "SWORDSMAN", 1, mkAbilityScores 10 10 10 10 10 10, [],
   ⟨200, 50, 25, 30, 20, 10, 15, 12, 4, 1, 8⟩, 100, 3, [], false, false⟩

/-- **C3.** Physical/magical damage in `takeDamage` is reduced by the factor
`min(90%, DEF-or-RES * 2%)` while true damage bypasses mitigation entirely;
the damage applied is at least 1 unless the unit the damage is applied to is
incapacitated, in which case it is zero; and in `calculateMitigation` the
summed elemental resistance is clamped to [-100%, 95%] and applied
multiplicatively after the flat mitigation, with the final damage again at
least 1. -/
theorem C3_mitigation_resistance_min_damage :
    (∀ (u : Tactica.Unit) (amount : ℚ) (dtype : String),
      u.isIncapacitated = true →
        (u.takeDamage amount dtype).1.damage = 0 ∧
        (u.takeDamage amount dtype).1.actualDamage = 0 ∧
        (u.takeDamage amount dtype).2 = u) ∧
    (∀ (u : Tactica.Unit) (amount : ℚ),
      u.isIncapacitated = false →
        (u.takeDamage amount "physical").1.actualDamage +
            (u.takeDamage amount "physical").1.overkill =
          ((max 1 ⌊amount * (1 - min (9 / 10)
            (u.getCurrentStats.DEF * (2 / 100)))⌋ : ℤ) : ℚ) ∧
        (u.takeDamage amount "magical").1.actualDamage +
            (u.takeDamage amount "magical").1.overkill =
          ((max 1 ⌊amount * (1 - min (9 / 10)
            (u.getCurrentStats.RES * (2 / 100)))⌋ : ℤ) : ℚ) ∧
        (u.takeDamage amount "true").1.actualDamage +
            (u.takeDamage amount "true").1.overkill =
          ((max 1 ⌊amount⌋ : ℤ) : ℚ) ∧
        (1 : ℚ) ≤ (u.takeDamage amount "physical").1.actualDamage +
            (u.takeDamage amount "physical").1.overkill ∧
        (1 ≤ u.currentHP →
          1 ≤ (u.takeDamage amount "physical").1.actualDamage)) ∧
    (∀ (defender : Tactica.Unit) (damageType : String),
      -1 ≤ calculateElementalResistance defender damageType ∧
      calculateElementalResistance defender damageType ≤ 95 / 100) ∧
    (∀ (defender : Tactica.Unit) (damageType : String) (baseDamage : ℚ),
      (calculateMitigation defender damageType baseDamage).finalDamage =
        ((max 1 ⌊(max 1 (baseDamage -
          (((calculateMitigation defender damageType baseDamage).baseMitigation
            : ℤ) : ℚ))) *
          (1 - calculateElementalResistance defender damageType)⌋ : ℤ) : ℚ) ∧
      1 ≤ (calculateMitigation defender damageType baseDamage).finalDamage) := by
  refine ⟨?_, ?_, ?_, ?_⟩
  · intro u amount dtype h
    rw [Unit.takeDamage, if_pos h]
    exact ⟨rfl, rfl, rfl⟩
  · intro u amount h
    have hphys := takeDamage_applied u amount "physical" h
    have hmag := takeDamage_applied u amount "magical" h
    have htrue := takeDamage_applied u amount "true" h
    rw [show (("physical" : String) == "physical") = true from rfl] at hphys
    rw [show (("magical" : String) == "physical") = false from rfl,
        show (("magical" : String) == "magical") = true from rfl] at hmag
    rw [show (("true" : String) == "physical") = false from rfl,
        show (("true" : String) == "magical") = false from rfl] at htrue
    simp only [if_true, if_false] at hphys hmag htrue
    refine ⟨hphys, hmag, ?_, ?_, ?_⟩
    · rw [htrue]
      norm_num
    · rw [hphys]
      exact_mod_cast le_max_left 1 _
    · intro hhp
      rw [Unit.takeDamage, if_neg (by simp [h])]
      dsimp only
      refine le_min hhp ?_
      exact_mod_cast le_max_left 1 _
  · intro defender damageType
    rw [calculateElementalResistance]
    constructor
    · exact le_max_left _ _
    · exact max_le (by norm_num) (min_le_left _ _)
  · intro defender damageType baseDamage
    rw [calculateMitigation]
    dsimp only
    refine ⟨rfl, ?_⟩
    exact_mod_cast le_max_left 1 _

/-- Witness for C3: the incapacitated unit takes zero damage from a
50-point physical hit and is left unchanged; the alive unit (DEF 30, 100 HP)
has its applied damage given by the mitigation formula and at least 1. -/
theorem C3_mitigation_resistance_min_damage_witness :
    ((c3KoUnit.takeDamage 50 "physical").1.damage = 0 ∧
     (c3KoUnit.takeDamage 50 "physical").1.actualDamage = 0 ∧
     (c3KoUnit.takeDamage 50 "physical").2 = c3KoUnit) ∧
    ((c3AliveUnit.takeDamage 50 "physical").1.actualDamage +
        (c3AliveUnit.takeDamage 50 "physical").1.overkill =
      ((max 1 ⌊(50 : ℚ) * (1 - min (9 / 10)
        (c3AliveUnit.getCurrentStats.DEF * (2 / 100)))⌋ : ℤ) : ℚ) ∧
     (c3AliveUnit.takeDamage 50 "magical").1.actualDamage +
        (c3AliveUnit.takeDamage 50 "magical").1.overkill =
      ((max 1 ⌊(50 : ℚ) * (1 - min (9 / 10)
        (c3AliveUnit.getCurrentStats.RES * (2 / 100)))⌋ : ℤ) : ℚ) ∧
     (c3AliveUnit.takeDamage 50 "true").1.actualDamage +
        (c3AliveUnit.takeDamage 50 "true").1.overkill =
      ((max 1 ⌊(50 : ℚ)⌋ : ℤ) : ℚ) ∧
     (1 : ℚ) ≤ (c3AliveUnit.takeDamage 50 "physical").1.actualDamage +
        (c3AliveUnit.takeDamage 50 "physical").1.overkill ∧
     (1 ≤ c3AliveUnit.currentHP →
       1 ≤ (c3AliveUnit.takeDamage 50 "physical").1.actualDamage)) ∧
    1 ≤ (c3AliveUnit.takeDamage 50 "physical").1.actualDamage :=
  ⟨C3_mitigation_resistance_min_damage.1 c3KoUnit 50 "physical" rfl,
   C3_mitigation_resistance_min_damage.2.1 c3AliveUnit 50 rfl,
   (C3_mitigation_resistance_min_damage.2.1 c3AliveUnit 50 rfl).2.2.2.2
     (by norm_num [c3AliveUnit])⟩

/-! ## Damage calculation (src/combat/systems/DamageCalculator.js,
class DamageCalculator) -/

/-- A weapon or spell damage profile: dice count, die size, governing
ability, damage kind (an entry of `WEAPON_DAMAGE` / `SPELL_DAMAGE`). -/
structure DamageProfile where
  dice : ℕ
  sides : ℕ
  modifier : Option Ability
  dtype : String
deriving Repr, DecidableEq

/-- The `WEAPON_DAMAGE` table. -/
def WEAPON_DAMAGE (weaponType : String) : Option DamageProfile :=
  match weaponType with
  | "SWORD" => some ⟨2, 6, some .STR, "slashing"⟩
  | "DAGGER" => some ⟨1, 4, some .DEX, "piercing"⟩
  | "MACE" => some ⟨1, 8, some .STR, "bludgeoning"⟩
  | "SPEAR" => some ⟨1, 6, some .STR, "piercing"⟩
  | "HALBERD" => some ⟨1, 10, some .STR, "slashing"⟩
  | "BOW" => some ⟨1, 8, some .DEX, "piercing"⟩
  | "CROSSBOW" => some ⟨1, 10, some .DEX, "piercing"⟩
  | "STAFF" => some ⟨1, 6, some .INT, "magical"⟩
  | "TOME" => some ⟨1, 4, some .INT, "magical"⟩
  | "DUAL_WIELD" => some ⟨1, 6, some .DEX, "slashing"⟩
  | _ => none

/-- The `SPELL_DAMAGE` table. -/
def SPELL_DAMAGE (spellType : String) : Option DamageProfile :=
  match spellType with
  | "MAGIC_MISSILE" => some ⟨3, 4, some .INT, "magical"⟩
  | "FIREBALL" => some ⟨6, 6, some .INT, "fire"⟩
  | "ICE_SHARD" => some ⟨4, 6, some .INT, "ice"⟩
  | "LIGHTNING_BOLT" => some ⟨5, 6, some .INT, "lightning"⟩
  | "HOLY_LIGHT" => some ⟨4, 6, some .WIS, "holy"⟩
  | "DIVINE_WRATH" => some ⟨3, 8, some .WIS, "holy"⟩
  | "POISON_CLOUD" => some ⟨2, 4, some .INT, "poison"⟩
  | "BURNING" => some ⟨1, 6, none, "fire"⟩
  | _ => none

/-- The damage-dice loop: `count` draws of `randInt(1, sides)`, keeping the
individual rolls and the advanced RNG. -/
def rollDiceList : ℕ → ℕ → RNG → List ℤ × RNG
  | 0, _, r => ([], r)
  | n + 1, sides, r =>
      ((r.randInt 1 sides).1 ::
        (rollDiceList n sides (r.randInt 1 sides).2).1,
       (rollDiceList n sides (r.randInt 1 sides).2).2)

/-- Case-sensitive substring check, JavaScript `String.includes`. -/
def listStartsWith : List Char → List Char → Bool
  | [], _ => true
  | _ :: _, [] => false
  | a :: as, b :: bs => a == b && listStartsWith as bs

/-- Helper for `strContains`: scan every suffix of the haystack. -/
def listContainsSub (needle : List Char) : List Char → Bool
  | [] => needle.isEmpty
  | c :: rest => listStartsWith needle (c :: rest) || listContainsSub needle rest

/-- JavaScript `hay.includes(needle)` on strings. -/
def strContains (hay needle : String) : Bool :=
  listContainsSub needle.toList hay.toList

/-- Result record of `DamageCalculator.calculateWeaponDamage`. -/
structure WeaponDamageResult where
  dtype : String
  diceDamage : ℤ
  diceRolls : List ℤ
  abilityDamage : ℤ
  enhancementBonus : ℚ
  totalDamage : ℚ
  isCritical : Bool
deriving Repr, DecidableEq

/-- `DamageCalculator.calculateWeaponDamage` over a resolved weapon profile
(the source looks the profile up in `WEAPON_DAMAGE` and throws on an unknown
weapon type).  A critical doubles the dice count only; the flat
`max(0, ability modifier)` and the weapon `ATK` enhancement sum are added
once; the total is kept at least 1. -/
def calculateWeaponDamage (attacker : Tactica.Unit)
    (weaponData : DamageProfile) (rng : RNG) (isCritical : Bool) :
    WeaponDamageResult × RNG :=
  let diceCount := if isCritical then weaponData.dice * 2 else weaponData.dice
  let diceRolls := (rollDiceList diceCount weaponData.sides rng).1
  let rng' := (rollDiceList diceCount weaponData.sides rng).2
  let diceDamage := diceRolls.sum
  let abilityDamage : ℤ :=
    match weaponData.modifier with
    | some ab => max 0 (attacker.hiddenAbilities.getModifier ab)
    | none => 0
  let enhancementBonus : ℚ :=
    ((attacker.equipment.filter (fun item => item.etype == "weapon")).map
      (fun item => lookupQ item.statModifiers "ATK")).sum
  let totalDamage : ℚ :=
    max 1 ((diceDamage : ℚ) + (abilityDamage : ℚ) + enhancementBonus)
  (⟨weaponData.dtype, diceDamage, diceRolls, abilityDamage, enhancementBonus,
    totalDamage, isCritical⟩, rng')

/-- Result record of `DamageCalculator.calculateSpellDamage`. -/
structure SpellDamageResult where
  dtype : String
  diceDamage : ℤ
  diceRolls : List ℤ
  abilityDamage : ℤ
  focusBonus : ℚ
  levelBonus : ℕ
  spellLevel : ℕ
  totalDamage : ℚ
  isCritical : Bool
deriving Repr, DecidableEq

/-- `DamageCalculator.calculateSpellDamage` over a resolved spell profile.
The dice count is `dice + floor(spellLevel / 2)`, doubled on a critical;
the flat ability term, the staff/tome `MAG` focus sum and the level-scaling
term `floor(spellLevel * 1.5)` are each added once. -/
def calculateSpellDamage (caster : Tactica.Unit) (spellData : DamageProfile)
    (rng : RNG) (isCritical : Bool) (spellLevel : ℕ) :
    SpellDamageResult × RNG :=
  let baseDice := spellData.dice + spellLevel / 2
  let diceCount := if isCritical then baseDice * 2 else baseDice
  let diceRolls := (rollDiceList diceCount spellData.sides rng).1
  let rng' := (rollDiceList diceCount spellData.sides rng).2
  let diceDamage := diceRolls.sum
  let abilityDamage : ℤ :=
    match spellData.modifier with
    | some ab => max 0 (caster.hiddenAbilities.getModifier ab)
    | none => 0
  let focusBonus : ℚ :=
    ((caster.equipment.filter (fun item => item.etype == "weapon" &&
        (strContains item.name "staff" || strContains item.name "tome"))).map
      (fun item => lookupQ item.statModifiers "MAG")).sum
  let levelBonus : ℕ := 3 * spellLevel / 2
  let totalDamage : ℚ :=
    max 1 ((diceDamage : ℚ) + (abilityDamage : ℚ) + focusBonus +
      (levelBonus : ℚ))
  (⟨spellData.dtype, diceDamage, diceRolls, abilityDamage, focusBonus,
    levelBonus, spellLevel, totalDamage, isCritical⟩, rng')

/-- The dice loop produces exactly `count` rolls, from any RNG state. -/
lemma rollDiceList_length (n sides : ℕ) (r : RNG) :
    (rollDiceList n sides r).1.length = n := by
  induction n generalizing r with
  | zero => rfl
  | succ k ih =>
      rw [rollDiceList]
      dsimp only
      rw [List.length_cons, ih]

/-- **C5.** For every unit, weapon/spell profile and RNG state, the
critical-hit computation rolls exactly twice as many damage dice as the
profile's (level-scaled, for spells) dice count, while the flat
`max(0, governing ability modifier)` term, the equipment
enhancement/focus bonus and (for spells) the level-scaling term
`floor(spellLevel * 1.5)` are each added exactly once, identical to the
non-critical computation; the total is the dice sum plus those flat terms,
kept at least 1. -/
theorem C5_critical_doubles_dice_only :
    (∀ (attacker : Tactica.Unit) (p : DamageProfile) (rng : RNG),
      (calculateWeaponDamage attacker p rng true).1.diceRolls.length =
        2 * p.dice ∧
      (calculateWeaponDamage attacker p rng false).1.diceRolls.length =
        p.dice ∧
      (calculateWeaponDamage attacker p rng true).1.abilityDamage =
        (calculateWeaponDamage attacker p rng false).1.abilityDamage ∧
      (calculateWeaponDamage attacker p rng true).1.abilityDamage =
        (match p.modifier with
         | some ab => max 0 (attacker.hiddenAbilities.getModifier ab)
         | none => 0) ∧
      (calculateWeaponDamage attacker p rng true).1.enhancementBonus =
        (calculateWeaponDamage attacker p rng false).1.enhancementBonus ∧
      (calculateWeaponDamage attacker p rng true).1.totalDamage =
        max 1
          (((calculateWeaponDamage attacker p rng true).1.diceRolls.sum : ℚ) +
           ((calculateWeaponDamage attacker p rng true).1.abilityDamage : ℚ) +
           (calculateWeaponDamage attacker p rng true).1.enhancementBonus) ∧
      (calculateWeaponDamage attacker p rng false).1.totalDamage =
        max 1
          (((calculateWeaponDamage attacker p rng false).1.diceRolls.sum : ℚ) +
           ((calculateWeaponDamage attacker p rng false).1.abilityDamage : ℚ) +
           (calculateWeaponDamage attacker p rng false).1.enhancementBonus)) ∧
    (∀ (caster : Tactica.Unit) (p : DamageProfile) (rng : RNG)
        (spellLevel : ℕ),
      (calculateSpellDamage caster p rng true spellLevel).1.diceRolls.length =
        2 * (p.dice + spellLevel / 2) ∧
      (calculateSpellDamage caster p rng false spellLevel).1.diceRolls.length =
        p.dice + spellLevel / 2 ∧
      (calculateSpellDamage caster p rng true spellLevel).1.abilityDamage =
        (calculateSpellDamage caster p rng false spellLevel).1.abilityDamage ∧
      (calculateSpellDamage caster p rng true spellLevel).1.focusBonus =
        (calculateSpellDamage caster p rng false spellLevel).1.focusBonus ∧
      (calculateSpellDamage caster p rng true spellLevel).1.levelBonus =
        3 * spellLevel / 2 ∧
      (calculateSpellDamage caster p rng false spellLevel).1.levelBonus =
        3 * spellLevel / 2 ∧
      (calculateSpellDamage caster p rng true spellLevel).1.totalDamage =
        max 1
          (((calculateSpellDamage caster p rng true
              spellLevel).1.diceRolls.sum : ℚ) +
           ((calculateSpellDamage caster p rng true
              spellLevel).1.abilityDamage : ℚ) +
           (calculateSpellDamage caster p rng true spellLevel).1.focusBonus +
           ((calculateSpellDamage caster p rng true
              spellLevel).1.levelBonus : ℚ))) := by
  constructor
  · intro attacker p rng
    simp only [calculateWeaponDamage, if_true, Bool.false_eq_true, if_false]
    refine ⟨?_, ?_, ?_, ?_, ?_, ?_, ?_⟩
    · rw [rollDiceList_length, Nat.mul_comm]
    · rw [rollDiceList_length]
    all_goals trivial
  · intro caster p rng spellLevel
    simp only [calculateSpellDamage, if_true, Bool.false_eq_true, if_false]
    refine ⟨?_, ?_, ?_, ?_, ?_, ?_, ?_⟩
    · rw [rollDiceList_length, Nat.mul_comm]
    · rw [rollDiceList_length]
    all_goals trivial

end Tactica
